import Mathlib

/-!
Verification of the opaque-handle facade in `src/core/trtserver.cc` of the
tensorrt-inference-server repository. The facade translates the engine's
internal status model into externally owned error objects, marshals
structured payloads, and drives one inference call through an asynchronous
invoke-then-callback protocol. The inference engine itself
(`InferenceServer`, protobuf parsers, providers) is an external
collaborator: its operations appear here either as universally quantified
function parameters or, where a claim depends on the engine's contract, as
definitions modelled from the specification and marked as such.
-/

set_option autoImplicit false

namespace TrtServer

/-- Status codes of `ni::RequestStatusCode` as used by the facade
(`SUCCESS` plus the seven failure codes of the external taxonomy). -/
inductive RequestStatusCode where
  | SUCCESS
  | UNKNOWN
  | INTERNAL
  | NOT_FOUND
  | INVALID_ARG
  | UNAVAILABLE
  | UNSUPPORTED
  | ALREADY_EXISTS
  deriving DecidableEq

/-- Embedding of `ni::Status` (internal status value with `Code()` and
`Message()` accessors). -/
structure NiStatus where
  code : RequestStatusCode
  msg : String
  deriving DecidableEq

/-- Embedding of the `ni::RequestStatus` protobuf message with `code()` and
`msg()` fields: the terminal result holder of one inference request. -/
structure RequestStatus where
  code : RequestStatusCode
  msg : String
  deriving DecidableEq

/-- Embedding of `TrtServerError`, the implementation behind the opaque
`TRTSERVER_Error` handle: a failure code together with a message. -/
structure TrtServerError where
  code : RequestStatusCode
  msg : String
  deriving DecidableEq

/-- Embedding of `TrtServerError::Create(code, msg)`: returns `none`
(nullptr) when `code` is `SUCCESS`, otherwise an owned error object
carrying exactly the given code and message. -/
def TrtServerError.Create (code : RequestStatusCode) (msg : String) :
    Option TrtServerError :=
  if code = RequestStatusCode.SUCCESS then
    none
  else
    some { code := code, msg := msg }

/-- Embedding of the `TrtServerError::Create(const ni::RequestStatus&)`
overload: translate a terminal result holder. -/
def TrtServerError.CreateFromRequestStatus (status : RequestStatus) :
    Option TrtServerError :=
  TrtServerError.Create status.code status.msg

/-- Embedding of `TrtServerProtobuf`: the serialized-payload wrapper. The
byte buffer is produced at construction time; bytes are modelled as `Nat`. -/
structure TrtServerProtobuf where
  serialized : List Nat
  deriving DecidableEq

/-- Embedding of `TrtServerOptions`: the options value holding the model
repository path. -/
structure TrtServerOptions where
  repo_path : String
  deriving DecidableEq

/-- Embedding of `TRTSERVER_ServerOptionsSetModelRepositoryPath`. -/
def TrtServerOptions.SetModelRepositoryPath (options : TrtServerOptions)
    (path : String) : TrtServerOptions :=
  { options with repo_path := path }

/-- A caller-owned input buffer fragment: base pointer and byte size, with
the pointer abstracted as a natural number address. -/
structure Buffer where
  base : Nat
  byteSize : Nat
  deriving DecidableEq

/-- Embedding of the protobuf `ni::InferRequestHeader`: the facade reads
only `batch_size()`; the remaining structured content is abstracted into a
single field. -/
structure InferRequestHeader where
  batch_size : Nat
  rest : Nat
  deriving DecidableEq

/-- Lookup in the request provider's input map (`input_map_`, an
unordered map from input name to a `SystemMemoryReference` holding the
appended buffer fragments). -/
def inputMapLookup (m : List (String × List Buffer)) (name : String) :
    Option (List Buffer) :=
  match m with
  | [] => none
  | (k, v) :: rest => if k = name then some v else inputMapLookup rest name

/-- Map update used by `SetInputData`: `emplace` the name with a fresh
empty `SystemMemoryReference` when it is new, then `AddBuffer` the
fragment at the end of that name's fragment list. -/
def inputMapAppend (m : List (String × List Buffer)) (name : String)
    (b : Buffer) : List (String × List Buffer) :=
  match m with
  | [] => [(name, [b])]
  | (k, v) :: rest =>
      if k = name then (k, v ++ [b]) :: rest
      else (k, v) :: inputMapAppend rest name b

/-- Embedding of `TrtServerRequestProvider`, the implementation behind the
opaque `TRTSERVER_InferenceRequestProvider` handle. -/
structure TrtServerRequestProvider where
  model_name : String
  model_version : Int
  request_header : InferRequestHeader
  input_map : List (String × List Buffer)
  deriving DecidableEq

/-- Embedding of `TrtServerRequestProvider::SetInputData`: appends the
buffer fragment under `input_name`, creating the empty fragment list first
when the name is not yet in the map. -/
def TrtServerRequestProvider.SetInputData (p : TrtServerRequestProvider)
    (input_name : String) (b : Buffer) : TrtServerRequestProvider :=
  { p with input_map := inputMapAppend p.input_map input_name b }

/-- Embedding of `TRTSERVER_InferenceRequestProviderSetInputData`: applies
`SetInputData` on the provider and returns nullptr (success)
unconditionally. -/
def TRTSERVER_InferenceRequestProviderSetInputData
    (p : TrtServerRequestProvider) (input_name : String) (b : Buffer) :
    TrtServerRequestProvider × Option TrtServerError :=
  (p.SetInputData input_name b, none)

/-- Embedding of `TRTSERVER_InferenceRequestProviderNew`. The protobuf
parser `InferRequestHeader::ParseFromArray` is external; it is passed in as
a function from the raw bytes to an optional parsed header. On parse
failure the facade returns an `INVALID_ARG` error and writes no provider;
on success it allocates a provider with an empty input map. The definition
takes no engine argument: creation never reaches any engine operation. -/
def TRTSERVER_InferenceRequestProviderNew
    (parseFromArray : List Nat → Option InferRequestHeader)
    (model_name : String) (model_version : Int)
    (request_header_bytes : List Nat) :
    Except TrtServerError TrtServerRequestProvider :=
  match parseFromArray request_header_bytes with
  | none =>
      Except.error
        { code := RequestStatusCode.INVALID_ARG
          msg := "failed to parse InferRequestHeader" }
  | some request_header =>
      Except.ok
        { model_name := model_name
          model_version := model_version
          request_header := request_header
          input_map := [] }

/-- Embedding of the protobuf `ni::InferResponseHeader`, abstracted into a
single content field (the facade only serializes it). -/
structure InferResponseHeader where
  rest : Nat
  deriving DecidableEq

/-- Embedding of `ni::InferResponseProvider` (including the delegating
subclass used by the orchestrator): the facade reads its response header
and tags it with an identity. -/
structure InferResponseProvider where
  response_header : InferResponseHeader
  id : Nat
  deriving DecidableEq

/-- Embedding of `TrtServerResponse`, the implementation behind the opaque
`TRTSERVER_InferenceResponse` handle: the terminal result holder plus the
engine-produced response provider. -/
structure TrtServerResponse where
  request_status : RequestStatus
  response_provider : InferResponseProvider
  deriving DecidableEq

/-- Embedding of `TrtServerResponse::Status`: a fresh error translation of
the stored terminal result on every call. -/
def TrtServerResponse.Status (r : TrtServerResponse) :
    Option TrtServerError :=
  TrtServerError.CreateFromRequestStatus r.request_status

/-- Embedding of `TRTSERVER_InferenceResponseHeader`. The protobuf
serializer is external and passed in as a function. When `Status()` yields
an error the function returns that error and writes no payload; otherwise
it wraps the provider's response header in a freshly serialized payload. -/
def TRTSERVER_InferenceResponseHeader
    (serializeHeader : InferResponseHeader → List Nat)
    (r : TrtServerResponse) : Except TrtServerError TrtServerProtobuf :=
  match TrtServerResponse.Status r with
  | some status => Except.error status
  | none =>
      Except.ok { serialized := serializeHeader r.response_provider.response_header }

/-- Embedding of the engine object `ni::InferenceServer` as the facade
sees it: the facade stores the model repository path into it via
`SetModelStorePath` before initialization. -/
structure InferenceServer where
  model_store_path : String
  deriving DecidableEq

/-- Embedding of `TRTSERVER_ServerNew`. The engine's `Init()` routine is
external (`server.h`); its outcome is passed in as a function of the model
store path that was set from the options. On initialization failure the
partially built engine value is discarded (never escapes) and an
`INVALID_ARG` error is returned; on success the handle is written and no
error is returned. -/
def TRTSERVER_ServerNew (initFn : String → Bool)
    (options : TrtServerOptions) :
    Except TrtServerError InferenceServer :=
  let lserver : InferenceServer := { model_store_path := options.repo_path }
  if initFn lserver.model_store_path then
    Except.ok lserver
  else
    Except.error
      { code := RequestStatusCode.INVALID_ARG
        msg := "failed to initialize inference server" }

/-- Embedding of the protobuf `ni::ServerStatus` structured status message,
abstracted into a single content field. -/
structure ServerStatusMsg where
  rest : Nat
  deriving DecidableEq

/-- Embedding of `TRTSERVER_ServerStatus`. The engine's `HandleStatus` is
external and passed in as a function from the model-name argument to the
request status and structured server status it produces; the protobuf
serializer is likewise a parameter. The out-parameter `statusOut` is
modelled by its prior contents: it is overwritten with a fresh payload
exactly when the engine reports `SUCCESS`, and the translated error of the
engine's request status is returned. The facade queries all models by
passing the empty string. -/
def TRTSERVER_ServerStatus
    (handleStatus : String → RequestStatus × ServerStatusMsg)
    (serializeStatus : ServerStatusMsg → List Nat)
    (statusOut : Option TrtServerProtobuf) :
    Option TrtServerProtobuf × Option TrtServerError :=
  let qr := handleStatus ""
  let statusOut :=
    if qr.1.code = RequestStatusCode.SUCCESS then
      some { serialized := serializeStatus qr.2 }
    else statusOut
  (statusOut, TrtServerError.Create qr.1.code qr.1.msg)

/-- Embedding of `TRTSERVER_ServerModelStatus`: as `TRTSERVER_ServerStatus`
but passing the caller's model name to the engine's status query. -/
def TRTSERVER_ServerModelStatus
    (handleStatus : String → RequestStatus × ServerStatusMsg)
    (serializeStatus : ServerStatusMsg → List Nat)
    (statusOut : Option TrtServerProtobuf) (model_name : String) :
    Option TrtServerProtobuf × Option TrtServerError :=
  let qr := handleStatus model_name
  let statusOut :=
    if qr.1.code = RequestStatusCode.SUCCESS then
      some { serialized := serializeStatus qr.2 }
    else statusOut
  (statusOut, TrtServerError.Create qr.1.code qr.1.msg)

/-- The backend's metric reporter, abstracted to an identity. -/
structure MetricReporter where
  id : Nat
  deriving DecidableEq

/-- The backend's label provider, abstracted to an identity. -/
structure LabelProvider where
  id : Nat
  deriving DecidableEq

/-- Embedding of `ni::InferenceBackend` as the facade uses it: a metric
reporter and a label provider. -/
structure InferenceBackend where
  metric_reporter : MetricReporter
  label_provider : LabelProvider
  deriving DecidableEq

/-- Embedding of the engine-facing `ni::InferRequestProvider`, abstracted
to an identity (the facade only forwards it to the dispatch). -/
structure NiInferRequestProvider where
  id : Nat
  deriving DecidableEq

/-- The engine operations consumed by `TRTSERVER_ServerInferAsync`, all
external to this translation unit. Each is a function returning the
internal status the source checks with `RETURN_IF_STATUS_ERROR`, together
with the value it writes on success: backend resolution by model name and
version, request-header normalization against the backend (which rewrites
the header), request-provider construction, and response-provider
construction. -/
structure InferEngine where
  getInferenceBackend : String → Int → NiStatus × InferenceBackend
  normalizeRequestHeader :
    InferenceBackend → InferRequestHeader → NiStatus × InferRequestHeader
  inferRequestProviderCreate :
    String → Int → InferRequestHeader → List (String × List Buffer) →
      NiStatus × NiInferRequestProvider
  delegatingResponseProviderCreate :
    InferRequestHeader → LabelProvider → NiStatus × InferResponseProvider

/-- Embedding of `ni::ModelInferStats` as the facade manipulates it: the
per-request statistics and timer context. -/
structure ModelInferStats where
  model_name : String
  requested_version : Int
  failed : Bool
  metric_reporter : Option MetricReporter
  batch_size : Nat
  timer_running : Bool
  deriving DecidableEq

/-- A fresh statistics context as constructed at the top of
`TRTSERVER_ServerInferAsync`, before any of the setter calls. -/
def ModelInferStats.fresh (model_name : String) : ModelInferStats :=
  { model_name := model_name
    requested_version := 0
    failed := false
    metric_reporter := none
    batch_size := 0
    timer_running := false }

/-- The continuation captured by the dispatch step: it shares the
statistics context as it stood at capture time and the freshly constructed
response provider. The terminal-result holder it also captures is filled
in by the engine, so its contents appear as the argument of
`InferContinuation.run`. -/
structure InferContinuation where
  stats : ModelInferStats
  response_provider : InferResponseProvider
  deriving DecidableEq

/-- Embedding of the completion lambda passed to `HandleInfer`: given the
terminal result the engine wrote into the shared holder, it clears the
failed mark, resets the scoped timer, and builds a fresh
`TrtServerResponse` from the terminal-result holder and the response
provider; the pair returned is the statistics state it leaves behind and
the response handed to the caller's completion callback. -/
def InferContinuation.run (c : InferContinuation)
    (terminal : RequestStatus) : ModelInferStats × TrtServerResponse :=
  let stats := { c.stats with failed := false }
  let stats := { stats with timer_running := false }
  (stats, { request_status := terminal, response_provider := c.response_provider })

/-- The observable outcome of one `TRTSERVER_ServerInferAsync` call: the
synchronous return value, the state of the statistics context at the
moment the call returns, and the captured continuation when the request
was dispatched to `HandleInfer` (`none` exactly when the call returned
before dispatch). -/
structure InferAsyncResult where
  err : Option TrtServerError
  stats : ModelInferStats
  continuation : Option InferContinuation
  deriving DecidableEq

/-- Embedding of `TRTSERVER_ServerInferAsync`: starts the statistics and
timer context, records the requested version, pre-marks the context
failed, then runs backend resolution, header normalization,
request-provider construction and response-provider construction in
order, short-circuiting through `RETURN_IF_STATUS_ERROR` (returning the
translated status) on the first non-success status; when all four succeed
it dispatches to `HandleInfer` with the captured continuation and returns
nullptr without inspecting any dispatch outcome. -/
def TRTSERVER_ServerInferAsync (eng : InferEngine)
    (lprovider : TrtServerRequestProvider) : InferAsyncResult :=
  let request_header := lprovider.request_header
  let infer_stats := ModelInferStats.fresh lprovider.model_name
  let infer_stats := { infer_stats with timer_running := true }
  let infer_stats :=
    { infer_stats with requested_version := lprovider.model_version }
  let infer_stats := { infer_stats with failed := true }
  let gb := eng.getInferenceBackend lprovider.model_name lprovider.model_version
  if gb.1.code ≠ RequestStatusCode.SUCCESS then
    { err := TrtServerError.Create gb.1.code gb.1.msg
      stats := infer_stats
      continuation := none }
  else
    let backend := gb.2
    let infer_stats :=
      { infer_stats with metric_reporter := some backend.metric_reporter }
    let infer_stats := { infer_stats with batch_size := request_header.batch_size }
    let nh := eng.normalizeRequestHeader backend request_header
    if nh.1.code ≠ RequestStatusCode.SUCCESS then
      { err := TrtServerError.Create nh.1.code nh.1.msg
        stats := infer_stats
        continuation := none }
    else
      let request_header := nh.2
      let rp := eng.inferRequestProviderCreate lprovider.model_name
          lprovider.model_version request_header lprovider.input_map
      if rp.1.code ≠ RequestStatusCode.SUCCESS then
        { err := TrtServerError.Create rp.1.code rp.1.msg
          stats := infer_stats
          continuation := none }
      else
        let sp := eng.delegatingResponseProviderCreate request_header
            backend.label_provider
        if sp.1.code ≠ RequestStatusCode.SUCCESS then
          { err := TrtServerError.Create sp.1.code sp.1.msg
            stats := infer_stats
            continuation := none }
        else
          { err := none
            stats := infer_stats
            continuation :=
              some { stats := infer_stats, response_provider := sp.2 } }

/-- The first non-success status reported by the four scheduling steps of
`TRTSERVER_ServerInferAsync`, in the order the source runs them, with the
same data flow (the normalized header feeds both provider constructions);
`none` when every step reports success. -/
def inferAsyncFirstFailure (eng : InferEngine)
    (lprovider : TrtServerRequestProvider) : Option NiStatus :=
  let gb := eng.getInferenceBackend lprovider.model_name lprovider.model_version
  if gb.1.code ≠ RequestStatusCode.SUCCESS then some gb.1
  else
    let nh := eng.normalizeRequestHeader gb.2 lprovider.request_header
    if nh.1.code ≠ RequestStatusCode.SUCCESS then some nh.1
    else
      let rp := eng.inferRequestProviderCreate lprovider.model_name
          lprovider.model_version nh.2 lprovider.input_map
      if rp.1.code ≠ RequestStatusCode.SUCCESS then some rp.1
      else
        let sp := eng.delegatingResponseProviderCreate nh.2
            gb.2.label_provider
        if sp.1.code ≠ RequestStatusCode.SUCCESS then some sp.1
        else none

/-- An observable event of one asynchronous inference call: the scheduling
call returning its error value, or the completion callback being invoked
with a response bundle. -/
inductive InferEvent where
  | schedReturn (err : Option TrtServerError)
  | callback (response : TrtServerResponse)
  deriving DecidableEq

/-- Modelled from the spec: `lserver->HandleInfer` (the dispatch verb of
`ni::InferenceServer`, declared in `server.h` and not part of this
translation unit). Per the specification, the engine executes the
dispatched work on a worker thread and invokes the captured continuation
exactly once upon completion, strictly after the scheduling call has
returned, with the terminal result written into the shared
request-status holder; no continuation is invoked when the call returned
before dispatch. The observable history of one call with terminal result
`terminal` is therefore the scheduling return followed by the single
callback invocation when the request was dispatched. -/
def inferAsyncTrace (eng : InferEngine)
    (lprovider : TrtServerRequestProvider) (terminal : RequestStatus) :
    List InferEvent :=
  let r := TRTSERVER_ServerInferAsync eng lprovider
  InferEvent.schedReturn r.err ::
    (match r.continuation with
     | some c => [InferEvent.callback (c.run terminal).2]
     | none => [])

/-- Appending a fragment under a name makes the name's fragment list the
previous list (empty when the name was new) with the fragment at the end. -/
theorem inputMapAppend_lookup (m : List (String × List Buffer))
    (name : String) (b : Buffer) :
    inputMapLookup (inputMapAppend m name b) name =
      some ((inputMapLookup m name).getD [] ++ [b]) := by
  induction m with
  | nil => simp [inputMapAppend, inputMapLookup]
  | cons head tail ih =>
    obtain ⟨k, v⟩ := head
    by_cases hk : k = name
    · simp [inputMapAppend, inputMapLookup, hk]
    · simp [inputMapAppend, inputMapLookup, hk, ih]

/-- C4: `TrtServerError::Create(c, m)` yields nullptr when `c` is
`SUCCESS`, regardless of the message, and otherwise yields a present error
object whose code is `c` and whose message is `m`; no error object is ever
constructed for a success code. -/
theorem trtServerError_create_spec (c : RequestStatusCode) (m : String) :
    (c = RequestStatusCode.SUCCESS → TrtServerError.Create c m = none) ∧
    (c ≠ RequestStatusCode.SUCCESS →
      TrtServerError.Create c m = some { code := c, msg := m }) := by
  constructor
  · intro h
    simp [TrtServerError.Create, h]
  · intro h
    simp [TrtServerError.Create, h]

/-- Witness for C4 at a failure code and at the success code. -/
theorem trtServerError_create_spec_witness :
    TrtServerError.Create RequestStatusCode.NOT_FOUND "no such model" =
      some { code := RequestStatusCode.NOT_FOUND, msg := "no such model" } ∧
    TrtServerError.Create RequestStatusCode.SUCCESS "ignored" = none :=
  ⟨(trtServerError_create_spec RequestStatusCode.NOT_FOUND "no such model").2
      (by decide),
   (trtServerError_create_spec RequestStatusCode.SUCCESS "ignored").1 rfl⟩

/-- C5: when the caller's header bytes do not parse as a request-header
structure, `TRTSERVER_InferenceRequestProviderNew` fails with an
`INVALID_ARG` error and produces no descriptor (the success branch is
never taken, so no provider is written); the definition takes no engine
argument, so no engine operation is reached for such input. -/
theorem requestProviderNew_invalid_header
    (parseFromArray : List Nat → Option InferRequestHeader)
    (model_name : String) (model_version : Int) (bytes : List Nat)
    (h : parseFromArray bytes = none) :
    TRTSERVER_InferenceRequestProviderNew parseFromArray model_name
        model_version bytes =
      Except.error
        { code := RequestStatusCode.INVALID_ARG
          msg := "failed to parse InferRequestHeader" } ∧
    (TRTSERVER_InferenceRequestProviderNew parseFromArray model_name
        model_version bytes).isOk = false := by
  constructor
  · simp [TRTSERVER_InferenceRequestProviderNew, h]
  · simp [TRTSERVER_InferenceRequestProviderNew, h, Except.isOk, Except.toBool]

/-- Witness for C5 on a concrete rejecting parser and byte sequence. -/
theorem requestProviderNew_invalid_header_witness :
    TRTSERVER_InferenceRequestProviderNew (fun _ => none) "resnet50" 1
        [0, 1, 2] =
      Except.error
        { code := RequestStatusCode.INVALID_ARG
          msg := "failed to parse InferRequestHeader" } :=
  (requestProviderNew_invalid_header (fun _ => none) "resnet50" 1 [0, 1, 2]
      rfl).1

/-- C6: `SetInputData` appends the fragment under the given name (creating
the empty fragment list first when the name is new, so the list becomes
the single new fragment), a second call with the same name leaves both
fragments visible in call order, and the facade-level call always returns
nullptr (success). -/
theorem setInputData_append_order (p : TrtServerRequestProvider)
    (name : String) (b1 b2 : Buffer) :
    (TRTSERVER_InferenceRequestProviderSetInputData p name b1).2 = none ∧
    inputMapLookup (p.SetInputData name b1).input_map name =
      some ((inputMapLookup p.input_map name).getD [] ++ [b1]) ∧
    inputMapLookup ((p.SetInputData name b1).SetInputData name b2).input_map
        name =
      some ((inputMapLookup p.input_map name).getD [] ++ [b1, b2]) := by
  refine ⟨rfl, inputMapAppend_lookup p.input_map name b1, ?_⟩
  show inputMapLookup
      (inputMapAppend (inputMapAppend p.input_map name b1) name b2) name = _
  rw [inputMapAppend_lookup, inputMapAppend_lookup]
  simp

/-- C7: when the stored terminal result is not success,
`TRTSERVER_InferenceResponseHeader` returns exactly the error that
`Status()` produces and writes no payload; when the terminal result is
success, `Status()` is nullptr and the function returns a freshly
serialized payload wrapping the provider's structured response header. -/
theorem inferenceResponseHeader_spec
    (serializeHeader : InferResponseHeader → List Nat)
    (r : TrtServerResponse) :
    (r.request_status.code ≠ RequestStatusCode.SUCCESS →
      ∃ e, TrtServerResponse.Status r = some e ∧
        TRTSERVER_InferenceResponseHeader serializeHeader r =
          Except.error e) ∧
    (r.request_status.code = RequestStatusCode.SUCCESS →
      TrtServerResponse.Status r = none ∧
      TRTSERVER_InferenceResponseHeader serializeHeader r =
        Except.ok
          { serialized :=
              serializeHeader r.response_provider.response_header }) := by
  constructor
  · intro h
    refine ⟨{ code := r.request_status.code, msg := r.request_status.msg },
      ?_, ?_⟩
    · simp [TrtServerResponse.Status, TrtServerError.CreateFromRequestStatus,
        TrtServerError.Create, h]
    · simp [TRTSERVER_InferenceResponseHeader, TrtServerResponse.Status,
        TrtServerError.CreateFromRequestStatus, TrtServerError.Create, h]
  · intro h
    constructor
    · simp [TrtServerResponse.Status, TrtServerError.CreateFromRequestStatus,
        TrtServerError.Create, h]
    · simp [TRTSERVER_InferenceResponseHeader, TrtServerResponse.Status,
        TrtServerError.CreateFromRequestStatus, TrtServerError.Create, h]

/-- Witness for C7 on a failed terminal result and on a successful one. -/
theorem inferenceResponseHeader_spec_witness :
    (∃ e,
      TrtServerResponse.Status
          { request_status :=
              { code := RequestStatusCode.INTERNAL, msg := "exec failed" }
            response_provider := { response_header := { rest := 7 }, id := 3 } } =
        some e ∧
      TRTSERVER_InferenceResponseHeader (fun h => [h.rest])
          { request_status :=
              { code := RequestStatusCode.INTERNAL, msg := "exec failed" }
            response_provider := { response_header := { rest := 7 }, id := 3 } } =
        Except.error e) ∧
    TRTSERVER_InferenceResponseHeader (fun h => [h.rest])
        { request_status := { code := RequestStatusCode.SUCCESS, msg := "" }
          response_provider := { response_header := { rest := 7 }, id := 3 } } =
      Except.ok { serialized := [7] } :=
  ⟨(inferenceResponseHeader_spec (fun h => [h.rest])
      { request_status :=
          { code := RequestStatusCode.INTERNAL, msg := "exec failed" }
        response_provider :=
          { response_header := { rest := 7 }, id := 3 } }).1 (by decide),
   ((inferenceResponseHeader_spec (fun h => [h.rest])
      { request_status := { code := RequestStatusCode.SUCCESS, msg := "" }
        response_provider :=
          { response_header := { rest := 7 }, id := 3 } }).2 rfl).2⟩

/-- C8: `TRTSERVER_ServerNew` sets the engine's model store path from the
options before running the engine's initialization routine on it; when
initialization fails the engine value is discarded and a present
`INVALID_ARG` error is returned with no handle written, and when it
succeeds the handle (carrying the options' repository path) is written and
no error is returned. -/
theorem serverNew_spec (initFn : String → Bool)
    (options : TrtServerOptions) :
    (initFn options.repo_path = true →
      TRTSERVER_ServerNew initFn options =
        Except.ok { model_store_path := options.repo_path }) ∧
    (initFn options.repo_path = false →
      TRTSERVER_ServerNew initFn options =
        Except.error
          { code := RequestStatusCode.INVALID_ARG
            msg := "failed to initialize inference server" } ∧
      (TRTSERVER_ServerNew initFn options).isOk = false) := by
  constructor
  · intro h
    simp [TRTSERVER_ServerNew, h]
  · intro h
    constructor
    · simp [TRTSERVER_ServerNew, h]
    · simp [TRTSERVER_ServerNew, h, Except.isOk, Except.toBool]

/-- Witness for C8 with an initialization routine that accepts one path
and rejects another. -/
theorem serverNew_spec_witness :
    TRTSERVER_ServerNew (fun path => path = "/models") { repo_path := "/models" } =
      Except.ok { model_store_path := "/models" } ∧
    TRTSERVER_ServerNew (fun path => path = "/models") { repo_path := "/bad" } =
      Except.error
        { code := RequestStatusCode.INVALID_ARG
          msg := "failed to initialize inference server" } :=
  ⟨(serverNew_spec (fun path => path = "/models") { repo_path := "/models" }).1
      (by simp),
   ((serverNew_spec (fun path => path = "/models") { repo_path := "/bad" }).2
      (by simp)).1⟩

/-- C9: for the all-models query and the per-model query alike, when the
engine's status query reports `SUCCESS` the out-parameter receives a fresh
serialized payload wrapping the structured status and no error is
returned; when it reports a failure the out-parameter keeps its prior
contents (no payload is produced) and only the translated error (same
code and message) is returned. The all-models query is the per-model query
at the empty model-name string. -/
theorem serverStatus_spec
    (handleStatus : String → RequestStatus × ServerStatusMsg)
    (serializeStatus : ServerStatusMsg → List Nat)
    (statusOut : Option TrtServerProtobuf) (model_name : String) :
    ((handleStatus model_name).1.code = RequestStatusCode.SUCCESS →
      TRTSERVER_ServerModelStatus handleStatus serializeStatus statusOut
          model_name =
        (some { serialized := serializeStatus (handleStatus model_name).2 },
          none)) ∧
    ((handleStatus model_name).1.code ≠ RequestStatusCode.SUCCESS →
      TRTSERVER_ServerModelStatus handleStatus serializeStatus statusOut
          model_name =
        (statusOut,
          some { code := (handleStatus model_name).1.code
                 msg := (handleStatus model_name).1.msg })) ∧
    TRTSERVER_ServerStatus handleStatus serializeStatus statusOut =
      TRTSERVER_ServerModelStatus handleStatus serializeStatus statusOut
        "" := by
  refine ⟨?_, ?_, rfl⟩
  · intro h
    simp [TRTSERVER_ServerModelStatus, TrtServerError.Create, h]
  · intro h
    simp [TRTSERVER_ServerModelStatus, TrtServerError.Create, h]

/-- Witness for C9 with a query that succeeds on the empty name and fails
on a concrete model name, starting from an unset out-parameter. -/
theorem serverStatus_spec_witness :
    TRTSERVER_ServerModelStatus
        (fun n =>
          if n = "" then
            ({ code := RequestStatusCode.SUCCESS, msg := "" }, { rest := 5 })
          else
            ({ code := RequestStatusCode.NOT_FOUND, msg := "unknown model" },
              { rest := 0 }))
        (fun s => [s.rest]) none "" =
      (some { serialized := [5] }, none) ∧
    TRTSERVER_ServerModelStatus
        (fun n =>
          if n = "" then
            ({ code := RequestStatusCode.SUCCESS, msg := "" }, { rest := 5 })
          else
            ({ code := RequestStatusCode.NOT_FOUND, msg := "unknown model" },
              { rest := 0 }))
        (fun s => [s.rest]) none "densenet" =
      (none,
        some { code := RequestStatusCode.NOT_FOUND, msg := "unknown model" }) :=
  ⟨(serverStatus_spec
      (fun n =>
        if n = "" then
          ({ code := RequestStatusCode.SUCCESS, msg := "" }, { rest := 5 })
        else
          ({ code := RequestStatusCode.NOT_FOUND, msg := "unknown model" },
            { rest := 0 }))
      (fun s => [s.rest]) none "").1 (by simp),
   ((serverStatus_spec
      (fun n =>
        if n = "" then
          ({ code := RequestStatusCode.SUCCESS, msg := "" }, { rest := 5 })
        else
          ({ code := RequestStatusCode.NOT_FOUND, msg := "unknown model" },
            { rest := 0 }))
      (fun s => [s.rest]) none "densenet").2).1 (by simp)⟩

/-- A success status value for building concrete engine behaviors. -/
def statusOk : NiStatus :=
  { code := RequestStatusCode.SUCCESS, msg := "" }

/-- A concrete resolved backend for building concrete engine behaviors. -/
def backendEx : InferenceBackend :=
  { metric_reporter := { id := 1 }, label_provider := { id := 2 } }

/-- A concrete engine on which all four scheduling steps succeed. -/
def engAllOk : InferEngine :=
  { getInferenceBackend := fun _ _ => (statusOk, backendEx)
    normalizeRequestHeader := fun _ h => (statusOk, { h with rest := h.rest + 1 })
    inferRequestProviderCreate := fun _ _ _ _ => (statusOk, { id := 4 })
    delegatingResponseProviderCreate := fun _ _ =>
      (statusOk, { response_header := { rest := 9 }, id := 5 }) }

/-- A concrete engine whose backend resolution fails with `NOT_FOUND`. -/
def engNotFound : InferEngine :=
  { engAllOk with
    getInferenceBackend := fun _ _ =>
      ({ code := RequestStatusCode.NOT_FOUND, msg := "model unavailable" },
        backendEx) }

/-- A concrete request provider for exercising the orchestrator. -/
def provEx : TrtServerRequestProvider :=
  { model_name := "resnet50"
    model_version := 1
    request_header := { batch_size := 8, rest := 0 }
    input_map := [] }

/-- A successful terminal result for exercising the continuation. -/
def terminalOk : RequestStatus :=
  { code := RequestStatusCode.SUCCESS, msg := "" }

/-- C1: whenever one of backend resolution, request-header normalization,
request-provider construction or response-provider construction reports a
non-success status, `TRTSERVER_ServerInferAsync` returns the translation
of the first such status (same code and message) immediately, and no
continuation was dispatched, so the completion callback can never be
invoked for that call. -/
theorem inferAsync_failure_short_circuits (eng : InferEngine)
    (p : TrtServerRequestProvider) (st : NiStatus)
    (h : inferAsyncFirstFailure eng p = some st) :
    (TRTSERVER_ServerInferAsync eng p).err =
      some { code := st.code, msg := st.msg } ∧
    (TRTSERVER_ServerInferAsync eng p).continuation = none := by
  simp only [inferAsyncFirstFailure] at h
  simp only [TRTSERVER_ServerInferAsync]
  split at h
  next h1 =>
    rw [Option.some.injEq] at h
    rw [if_pos h1]
    rw [h] at h1
    exact ⟨by simp [h, TrtServerError.Create, h1], rfl⟩
  next h1 =>
    rw [if_neg h1]
    split at h
    next h2 =>
      rw [Option.some.injEq] at h
      rw [if_pos h2]
      rw [h] at h2
      exact ⟨by simp [h, TrtServerError.Create, h2], rfl⟩
    next h2 =>
      rw [if_neg h2]
      split at h
      next h3 =>
        rw [Option.some.injEq] at h
        rw [if_pos h3]
        rw [h] at h3
        exact ⟨by simp [h, TrtServerError.Create, h3], rfl⟩
      next h3 =>
        rw [if_neg h3]
        split at h
        next h4 =>
          rw [Option.some.injEq] at h
          rw [if_pos h4]
          rw [h] at h4
          exact ⟨by simp [h, TrtServerError.Create, h4], rfl⟩
        next h4 =>
          exact Option.noConfusion h

/-- Witness for C1: an engine whose backend resolution reports
`NOT_FOUND` makes the call return that error with no continuation. -/
theorem inferAsync_failure_short_circuits_witness :
    inferAsyncFirstFailure engNotFound provEx =
      some { code := RequestStatusCode.NOT_FOUND, msg := "model unavailable" } ∧
    (TRTSERVER_ServerInferAsync engNotFound provEx).err =
      some { code := RequestStatusCode.NOT_FOUND, msg := "model unavailable" } ∧
    (TRTSERVER_ServerInferAsync engNotFound provEx).continuation = none :=
  ⟨rfl,
   inferAsync_failure_short_circuits engNotFound provEx
     { code := RequestStatusCode.NOT_FOUND, msg := "model unavailable" } rfl⟩

/-- C10: when all four scheduling steps succeed, the call returns nullptr
(no error) unconditionally and the continuation was dispatched; the
dispatch verb `HandleInfer` has no return value the facade could inspect,
so a dispatch failure cannot surface through the synchronous return. -/
theorem inferAsync_success_returns_no_error (eng : InferEngine)
    (p : TrtServerRequestProvider)
    (h : inferAsyncFirstFailure eng p = none) :
    (TRTSERVER_ServerInferAsync eng p).err = none ∧
    (TRTSERVER_ServerInferAsync eng p).continuation.isSome = true := by
  simp only [inferAsyncFirstFailure] at h
  simp only [TRTSERVER_ServerInferAsync]
  split at h
  next h1 => exact Option.noConfusion h
  next h1 =>
    rw [if_neg h1]
    split at h
    next h2 => exact Option.noConfusion h
    next h2 =>
      rw [if_neg h2]
      split at h
      next h3 => exact Option.noConfusion h
      next h3 =>
        rw [if_neg h3]
        split at h
        next h4 => exact Option.noConfusion h
        next h4 =>
          rw [if_neg h4]
          exact ⟨rfl, rfl⟩

/-- Witness for C10 on the all-success engine. -/
theorem inferAsync_success_returns_no_error_witness :
    (TRTSERVER_ServerInferAsync engAllOk provEx).err = none ∧
    (TRTSERVER_ServerInferAsync engAllOk provEx).continuation.isSome = true :=
  inferAsync_success_returns_no_error engAllOk provEx rfl

/-- C2 (engine dispatch modelled from the spec): for a successfully
scheduled request the observable history is exactly the scheduling return
followed by one callback invocation — the callback fires at most (here
exactly) once, strictly after the scheduling call returns — and the
delivered response bundle is freshly constructed from the terminal-result
holder and the response provider built for that request. -/
theorem inferAsync_callback_exactly_once (eng : InferEngine)
    (p : TrtServerRequestProvider) (terminal : RequestStatus)
    (h : (TRTSERVER_ServerInferAsync eng p).err = none) :
    ∃ c, (TRTSERVER_ServerInferAsync eng p).continuation = some c ∧
      c.response_provider =
        (eng.delegatingResponseProviderCreate
          (eng.normalizeRequestHeader
            (eng.getInferenceBackend p.model_name p.model_version).2
            p.request_header).2
          (eng.getInferenceBackend p.model_name
            p.model_version).2.label_provider).2 ∧
      inferAsyncTrace eng p terminal =
        [InferEvent.schedReturn none,
         InferEvent.callback
           { request_status := terminal
             response_provider := c.response_provider }] := by
  unfold inferAsyncTrace
  simp only [TRTSERVER_ServerInferAsync] at h ⊢
  split at h
  next h1 => simp [TrtServerError.Create, h1] at h
  next h1 =>
    rw [if_neg h1]
    split at h
    next h2 => simp [TrtServerError.Create, h2] at h
    next h2 =>
      rw [if_neg h2]
      split at h
      next h3 => simp [TrtServerError.Create, h3] at h
      next h3 =>
        rw [if_neg h3]
        split at h
        next h4 => simp [TrtServerError.Create, h4] at h
        next h4 =>
          rw [if_neg h4]
          exact ⟨_, rfl, rfl, rfl⟩

/-- Witness for C2 on the all-success engine with a successful terminal
result. -/
theorem inferAsync_callback_exactly_once_witness :
    ∃ c, (TRTSERVER_ServerInferAsync engAllOk provEx).continuation = some c ∧
      c.response_provider =
        (engAllOk.delegatingResponseProviderCreate
          (engAllOk.normalizeRequestHeader
            (engAllOk.getInferenceBackend provEx.model_name
              provEx.model_version).2
            provEx.request_header).2
          (engAllOk.getInferenceBackend provEx.model_name
            provEx.model_version).2.label_provider).2 ∧
      inferAsyncTrace engAllOk provEx terminalOk =
        [InferEvent.schedReturn none,
         InferEvent.callback
           { request_status := terminalOk
             response_provider := c.response_provider }] :=
  inferAsync_callback_exactly_once engAllOk provEx terminalOk rfl

/-- C3 counterexample: on an engine where scheduling succeeds, running the
completion continuation with a non-success terminal result still clears
the failed mark — the mark is not cleared only on successful completion,
contradicting the claim as stated. -/
theorem inferStats_cleared_on_failed_completion :
    ((TRTSERVER_ServerInferAsync engAllOk provEx).continuation.map
        (fun c =>
          (c.run { code := RequestStatusCode.INTERNAL
                   msg := "inference failed" }).1.failed))
      = some false ∧
    ({ code := RequestStatusCode.INTERNAL, msg := "inference failed" } :
        RequestStatus).code ≠ RequestStatusCode.SUCCESS := by
  exact ⟨rfl, by decide⟩

/-- C3 as amended: the statistics context is pre-marked failed and is
still marked failed at the moment `TRTSERVER_ServerInferAsync` returns —
in particular every early scheduling-failure return leaves it failed —
and the failed mark is cleared exactly when the completion continuation
runs, regardless of the terminal result it is run with. -/
theorem inferStats_failed_mark_lifecycle (eng : InferEngine)
    (p : TrtServerRequestProvider) :
    (TRTSERVER_ServerInferAsync eng p).stats.failed = true ∧
    ∀ (c : InferContinuation) (terminal : RequestStatus),
      (c.run terminal).1.failed = false := by
  constructor
  · simp only [TRTSERVER_ServerInferAsync, ModelInferStats.fresh]
    split
    · rfl
    · split
      · rfl
      · split
        · rfl
        · split
          · rfl
          · rfl
  · intro c terminal
    rfl

end TrtServer
